import Mathlib

/-!
Verification of the "AWS ECS Runner" Cronicle plugin (the core subsystem of
this repository's spec). The plugin reads a job JSON from stdin, optionally
registers a one-off task definition, runs an ECS task, polls it to a terminal
state (with a wall-clock timeout), optionally tails and fetches CloudWatch
logs through an include/exclude line filter, best-effort deregisters the
one-off task definition, and emits exactly one final JSON completion record.

The embedding below is a shallow model of that script. External AWS calls
are modelled as oracles carried in an `Env`: each call site consumes the
oracle's answer for that call (the describe-task poll loop consumes a list,
one entry per call). JavaScript strings/numbers are modelled as `String`/
`Nat`/`Int`; JS `x || d` falsy-defaulting on strings is `jsOr`, on numbers
`jsOrNat`; `null`/`undefined` is `Option.none`. Regular expressions are
modelled as opaque match predicates `String → Bool` produced by a compile
oracle that may fail (`Except`), matching the script's try/catch around
`new RegExp`.
-/

/-- A raw container entry of a DescribeTasks response (`task.containers[i]`).
`exitCode = none` models a `c.exitCode` that is not a number (absent/null). -/
structure DescContainer where
  name : Option String
  exitCode : Option Int
  reason : Option String
deriving DecidableEq, Repr

/-- One entry of `containerStatuses` as built by the script at STOPPED:
`{ name: c.name, exitCode: (typeof c.exitCode === 'number' ? c.exitCode : null),
   reason: c.reason || '' }`. -/
structure ContainerStatus where
  name : Option String
  exitCode : Option Int
  reason : String
deriving DecidableEq, Repr

/-- The per-container mapping applied when the task is observed STOPPED. -/
def containerStatusOf (c : DescContainer) : ContainerStatus :=
  { name := c.name, exitCode := c.exitCode, reason := c.reason.getD "" }

/-- `stopCode = containerStatuses.every(c => c.exitCode === 0) ? 0 : 1`. -/
def stopCodeOf (cs : List ContainerStatus) : Nat :=
  if cs.all (fun c => c.exitCode == some 0) then 0 else 1

/-- The outcome of one DescribeTasks call, as the wait loop sees it:
an API error (the SDK call threw), a response with no task
(`desc.tasks?.[0]` undefined, which the loop turns into a throw), or a task
with its `lastStatus` and optional `containers` array. -/
inductive DescribeOutcome where
  | apiError (msg : String)
  | noTask
  | task (lastStatus : String) (containers : Option (List DescContainer))
deriving DecidableEq, Repr

/-- One iteration's worth of the wait loop's environment: the describe
response and the value of `(Date.now() - start)` in milliseconds at the
point of the timeout check of that iteration. -/
structure PollStep where
  outcome : DescribeOutcome
  elapsedMs : Nat
deriving DecidableEq, Repr

/-- What the wait loop has produced when it breaks normally: the last
observed status, the computed `stopCode`, and `containerStatuses`
(still `[]` when the loop broke on timeout). -/
structure PollDone where
  lastStatus : String
  stopCode : Nat
  containerStatuses : List ContainerStatus
deriving DecidableEq, Repr

/-- The wait-for-STOPPED loop (source: the `while (true)` DescribeTasks loop).
Each list entry is consumed by exactly one DescribeTasks call; the returned
`Nat` counts the describe calls made. `none` means the provided trace ended
before the loop did. `Except.error` models the `throw` caught by the
surrounding try/catch (code 10 path); the timeout check
`(Date.now() - start) / 1000 > waitTimeoutSec` is `elapsedMs > T * 1000`. -/
def pollLoop (T : Nat) : List PollStep → Option (Except String PollDone × Nat)
  | [] => none
  | step :: rest =>
    match step.outcome with
    | .apiError msg => some (.error msg, 1)
    | .noTask => some (.error "DescribeTasks returned no task", 1)
    | .task lastStatus containers =>
      if lastStatus = "STOPPED" then
        let cs := (containers.getD []).map containerStatusOf
        some (.ok ⟨lastStatus, stopCodeOf cs, cs⟩, 1)
      else if step.elapsedMs > T * 1000 then
        some (.ok ⟨lastStatus, 124, []⟩, 1)
      else
        match pollLoop T rest with
        | none => none
        | some (r, n) => some (r, n + 1)

/-- A poll step on which the loop neither breaks nor throws: the describe
succeeded, the status is not terminal, and the timeout has not elapsed. -/
def okNonTerminalWithin (T : Nat) (s : PollStep) : Prop :=
  ∃ st cs, s.outcome = .task st cs ∧ st ≠ "STOPPED" ∧ s.elapsedMs ≤ T * 1000

/-- JS `v || d` for string-valued params: `none` (absent) and `some ""`
(empty string, falsy) both fall back to the default. -/
def jsOr (v : Option String) (d : String) : String :=
  match v with
  | some s => if s = "" then d else s
  | none => d

/-- JS `Number(v || d)` for numeric params: absent or `0` (falsy) falls back. -/
def jsOrNat (v : Option Nat) (d : Nat) : Nat :=
  match v with
  | some n => if n = 0 then d else n
  | none => d

/-- JS `v || null` on an optional string: an empty string becomes null. -/
def jsOrNull (v : Option String) : Option String :=
  match v with
  | some s => if s = "" then none else some s
  | none => none

/-- The whitespace test of `s.trim()` (the characters that occur in the
modelled inputs). -/
def isSpaceChar (c : Char) : Bool :=
  c = ' ' || c = '\t' || c = '\n' || c = '\r'

/-- JS `s.trim()`, implemented structurally over the character list so that
concrete instances evaluate inside the kernel. -/
def trimStr (s : String) : String :=
  ⟨((s.data.dropWhile isSpaceChar).reverse.dropWhile isSpaceChar).reverse⟩

/-- Uppercasing of one ASCII character (`String.prototype.toUpperCase` on
the alphabets the modelled inputs use). -/
def charUpper (c : Char) : Char :=
  if 97 ≤ c.toNat ∧ c.toNat ≤ 122 then Char.ofNat (c.toNat - 32) else c

/-- JS `s.toUpperCase()`, implemented structurally (see `trimStr`). -/
def strUpper (s : String) : String :=
  ⟨s.data.map charUpper⟩

/-- JS `s.split(sep)` for a one-character separator, implemented
structurally; the accumulator carries the current field reversed. -/
def splitOnChar (sep : Char) : List Char → List Char → List String
  | [], acc => [⟨acc.reverse⟩]
  | ch :: rest, acc =>
    if ch = sep then ⟨acc.reverse⟩ :: splitOnChar sep rest []
    else splitOnChar sep rest (ch :: acc)

/-- `(p.x || '').split(',').map(s => s.trim()).filter(Boolean)`. -/
def splitCsv (s : String) : List String :=
  ((splitOnChar ',' s.data []).map trimStr).filter (fun t => t ≠ "")

/-- The job's `params` object, restricted to the fields the modelled
behavior reads. String-typed fields are `Option String` (`none` = absent);
flags read only for truthiness (`!!p.tail_logs`, `p.keep_task_definition`)
are `Bool`; numeric fields are `Option Nat`. The field `cw_log_stream_pfx`
stands for the source's CloudWatch stream-name prefix parameter. -/
structure Params where
  ecs_cluster : Option String := none
  launch_type : Option String := none
  mode : Option String := none
  subnets : Option String := none
  security_groups : Option String := none
  assign_public_ip : Option String := none
  tail_logs : Bool := false
  cw_log_group : Option String := none
  cw_log_stream_pfx : Option String := none
  log_include_regex : Option String := none
  log_exclude_regex : Option String := none
  wait_timeout_sec : Option Nat := none
  task_definition : Option String := none
  container_name : Option String := none
  image : Option String := none
  requires_compatibilities : Option String := none
  keep_task_definition : Bool := false
deriving Repr

/-- The job object read from stdin: `const p = job.params || {}`. -/
structure Job where
  params : Option Params := none

/-- The derived constants the script computes from `p` before doing any
work (source lines: the block of `const` definitions after `readJobJSON`). -/
structure Cfg where
  cluster : String
  launchType : String
  mode : String
  subnets : List String
  securityGroups : List String
  assignPublicIp : String
  tailLogs : Bool
  logGroup : String
  logPfx : String
  waitTimeoutSec : Nat
  taskDefinition : String
  containerName : String
  image : String
  reqCompat : String
  keepTaskDef : Bool
  includeParam : Option String
  excludeParam : Option String
deriving Repr

/-- Derivation of every modelled constant, one line per source `const`. -/
def cfgOf (p : Params) : Cfg :=
  let launchType := strUpper (jsOr p.launch_type "FARGATE")
  { cluster := jsOr p.ecs_cluster ""
    launchType := launchType
    mode := jsOr p.mode "task_definition"
    subnets := splitCsv (jsOr p.subnets "")
    securityGroups := splitCsv (jsOr p.security_groups "")
    assignPublicIp :=
      if strUpper (jsOr p.assign_public_ip "DISABLED") = "ENABLED" then "ENABLED" else "DISABLED"
    tailLogs := p.tail_logs
    logGroup := jsOr p.cw_log_group ""
    logPfx := jsOr p.cw_log_stream_pfx "ecs"
    waitTimeoutSec := jsOrNat p.wait_timeout_sec 1800
    taskDefinition := jsOr p.task_definition ""
    containerName := jsOr p.container_name "app"
    image := jsOr p.image ""
    reqCompat := strUpper (jsOr p.requires_compatibilities launchType)
    keepTaskDef := p.keep_task_definition
    includeParam := p.log_include_regex
    excludeParam := p.log_exclude_regex }

/-- The regex-compilation step for one filter parameter: absent or empty
parameter gives no pattern; `new RegExp` throwing (compile error) is caught,
a warning is written, and the pattern stays unset — modelled by dropping the
`Except.error` to `none`. -/
def compiledRegexOf (param : Option String)
    (compile : String → Except String (String → Bool)) : Option (String → Bool) :=
  match param with
  | none => none
  | some s => if s = "" then none else (compile s).toOption

/-- `shouldPrintLogLine` from the source:
`if (includeRegex && !includeRegex.test(line)) return false;`
`if (excludeRegex && excludeRegex.test(line)) return false;  return true;`. -/
def shouldPrintLogLine (includeRegex excludeRegex : Option (String → Bool))
    (line : String) : Bool :=
  match includeRegex with
  | some r => if !(r line) then false else
      match excludeRegex with
      | some r2 => if r2 line then false else true
      | none => true
  | none =>
      match excludeRegex with
      | some r2 => if r2 line then false else true
      | none => true

/-- The live tailer's cursor update after one GetLogEvents call:
`if (out.nextForwardToken && out.nextForwardToken !== nextToken)
   nextToken = out.nextForwardToken;`
(`some ""` models an empty-string token, which is falsy and ignored). -/
def nextCursor (nextToken : Option String) (fwdToken : Option String) : Option String :=
  match fwdToken with
  | some t => if t ≠ "" ∧ some t ≠ nextToken then some t else nextToken
  | none => nextToken

/-- The cursor after a sequence of fetches, starting from `c0` (the tailer
starts with `nextToken = undefined`, i.e. `none`). -/
def cursorAfter (c0 : Option String) (toks : List (Option String)) : Option String :=
  toks.foldl nextCursor c0

/-- One entry of a RunTask response's `failures` array. -/
structure TaskFailure where
  reason : Option String
  arn : Option String
deriving DecidableEq, Repr

/-- The parts of a RunTask response the script reads:
`run.failures || []` and `run.tasks?.[0]?.taskArn`. -/
structure RunTaskResp where
  failures : Option (List TaskFailure)
  taskArn : Option String
deriving DecidableEq, Repr

/-- One CloudWatch log event (`e.message` can be null). -/
structure LogEvent where
  message : Option String
deriving DecidableEq, Repr

/-- The oracle environment of one invocation: the stdin job parse result and
one answer per external call site. `pollTrace` feeds the DescribeTasks loop,
one entry per call. `postRunResult` summarises the post-run log fetch: an
SDK error, or (stream-found?, events of the GetLogEvents call). -/
structure Env where
  jobResult : Except String Job
  compileRegex : String → Except String (String → Bool)
  registerResult : Except String (Option String)
  runResult : Except String RunTaskResp
  pollTrace : List PollStep
  postRunResult : Except String (Bool × List LogEvent)
  deregisterResult : Except String Unit

/-- The `details` object of the final completion record. -/
structure OutDetails where
  taskArn : String
  containers : List ContainerStatus
deriving DecidableEq, Repr

/-- One machine-parsable completion record, as written by `println(...)`:
`{ complete: 1, code, description?, details? }` (the `complete: 1` marker is
common to every record and left implicit). -/
structure RunOutcomeRec where
  code : Nat
  description : Option String
  details : Option OutDetails
deriving DecidableEq, Repr

/-- Counters for the external calls an execution performs, plus whether the
built RunTask request carried a `networkConfiguration` block. -/
structure RunStats where
  registerCalls : Nat := 0
  runCalls : Nat := 0
  describeCalls : Nat := 0
  deregisterCalls : Nat := 0
  networkAttached : Bool := false
deriving DecidableEq, Repr

/-- Everything one invocation writes, split by channel: the completion
records (`println`), plain stdout lines, stderr lines; plus call counters. -/
structure RunResult where
  records : List RunOutcomeRec
  out : List String
  errOut : List String
  stats : RunStats
deriving DecidableEq, Repr

/-- `failures.map(f => f.reason + ':' + (f.arn || '')).join(', ')`
(JS template interpolation prints a missing reason as "undefined"). -/
def failuresText (fs : List TaskFailure) : String :=
  String.intercalate ", " (fs.map fun f => f.reason.getD "undefined" ++ ":" ++ f.arn.getD "")

/-- The `awsvpcConfiguration` networking block, attached iff the derived
requires-compatibilities value is FARGATE (source: the
`if (requiresCompatibilities === 'FARGATE')` guard around
`runReq.networkConfiguration = ...`). -/
structure AwsVpcCfg where
  subnets : List String
  securityGroups : Option (List String)
  assignPublicIp : String
deriving DecidableEq, Repr

def networkConfigurationOf (c : Cfg) : Option AwsVpcCfg :=
  if c.reqCompat = "FARGATE" then
    some { subnets := c.subnets
           securityGroups := if c.securityGroups = [] then none else some c.securityGroups
           assignPublicIp := c.assignPublicIp }
  else none

/-- The post-run log fetch (`if (tailLogs && logGroup) { ... }`): emits the
fetched messages through the log filter, or a single informational line when
no stream matched; an SDK error is caught and written to stderr. Returns
(stdout lines, stderr lines). -/
def postRunFetch (env : Env) (c : Cfg) (taskArn : String) : List String × List String :=
  if c.tailLogs ∧ c.logGroup ≠ "" then
    let taskId := (splitOnChar '/' taskArn.data []).getLastD ""
    let streamName := c.logPfx ++ "/" ++ c.containerName ++ "/" ++ taskId
    match env.postRunResult with
    | .error msg => ([], ["CloudWatch logs fetch failed: " ++ msg])
    | .ok (found, events) =>
      if found then
        ((events.filterMap LogEvent.message).filter
          (shouldPrintLogLine (compiledRegexOf c.includeParam env.compileRegex)
            (compiledRegexOf c.excludeParam env.compileRegex)), [])
      else (["(No log stream found: " ++ streamName ++ ")"], [])
  else ([], [])

/-- The one-off task-definition cleanup
(`if (registeredTaskDefArn && !p.keep_task_definition) { try ... catch ... }`):
best-effort DeregisterTaskDefinition whose failure goes to stderr only.
Returns (stdout lines, stderr lines, updated stats). -/
def runCleanup (env : Env) (c : Cfg) (registeredArn : Option String)
    (st : RunStats) : List String × List String × RunStats :=
  match registeredArn with
  | some arn =>
    if c.keepTaskDef then ([], [], st)
    else
      match env.deregisterResult with
      | .ok _ =>
        (["Deregistered task definition: " ++ arn], [],
          { st with deregisterCalls := st.deregisterCalls + 1 })
      | .error msg =>
        ([], ["Deregister TD failed: " ++ msg],
          { st with deregisterCalls := st.deregisterCalls + 1 })
  | none => ([], [], st)

/-- The tail of the pipeline once a task ARN exists: the wait loop (a throw
becomes the code-10 record), then post-run log fetch, cleanup, and the final
completion record. The live tailer writes only plain log lines through
`shouldPrintLogLine` and never records; it is not replayed here. `none`
propagates a poll trace that ended before the loop did. -/
def runPollPhase (env : Env) (c : Cfg) (registeredArn : Option String)
    (taskArn : String) (st : RunStats) : Option RunResult :=
  match pollLoop c.waitTimeoutSec env.pollTrace with
  | none => none
  | some (.error msg, n) =>
    some { records := [⟨10, some ("Error while waiting for task to stop: " ++ msg), none⟩]
           out := []
           errOut := []
           stats := { st with describeCalls := st.describeCalls + n } }
  | some (.ok done, n) =>
    let st1 := { st with describeCalls := st.describeCalls + n }
    let post := postRunFetch env c taskArn
    let cln := runCleanup env c registeredArn st1
    let finalRec : RunOutcomeRec :=
      if done.stopCode = 0 then
        ⟨0, some ("ECS task stopped OK (" ++ done.lastStatus ++ ")"),
          some ⟨taskArn, done.containerStatuses⟩⟩
      else
        ⟨done.stopCode, some "ECS task stopped with non-zero exit",
          some ⟨taskArn, done.containerStatuses⟩⟩
    some { records := [finalRec]
           out := post.1 ++ cln.1
           errOut := post.2 ++ cln.2.1
           stats := cln.2.2 }

/-- The launch stage: the FARGATE subnet gate, the RunTask call with its
three failure records (failures list, missing ARN, thrown error), and the
hand-off to the poll phase (prefixing the "Started ECS task" stdout line). -/
def runAfterRegister (env : Env) (c : Cfg) (registeredArn : Option String)
    (st : RunStats) : Option RunResult :=
  if c.reqCompat = "FARGATE" ∧ c.subnets = [] then
    some { records := [⟨6, some "FARGATE requires subnets (params.subnets)", none⟩]
           out := [], errOut := [], stats := st }
  else
    let st1 := { st with networkAttached := (networkConfigurationOf c).isSome
                         runCalls := st.runCalls + 1 }
    match env.runResult with
    | .error msg =>
      some { records := [⟨9, some ("RunTask error: " ++ msg), none⟩]
             out := [], errOut := [], stats := st1 }
    | .ok resp =>
      let failures := resp.failures.getD []
      if failures ≠ [] then
        some { records := [⟨7, some ("RunTask failures: " ++ failuresText failures), none⟩]
               out := [], errOut := [], stats := st1 }
      else
        let taskArn := resp.taskArn.getD ""
        if taskArn = "" then
          some { records := [⟨8, some "ECS returned no task ARN", none⟩]
                 out := [], errOut := [], stats := st1 }
        else
          match runPollPhase env c registeredArn taskArn st1 with
          | none => none
          | some res => some { res with out := ("Started ECS task: " ++ taskArn) :: res.out }

/-- The precondition checks and the optional one-off registration
(image mode), in source order: missing cluster (2), task_definition mode
with empty reference (3), image mode with empty image (4), registration
failure (5). -/
def runWithCfg (env : Env) (c : Cfg) : Option RunResult :=
  if c.cluster = "" then
    some { records := [⟨2, some "Missing ecs_cluster parameter", none⟩]
           out := [], errOut := [], stats := {} }
  else if c.mode = "task_definition" ∧ c.taskDefinition = "" then
    some { records := [⟨3, some "mode=task_definition but task_definition is empty", none⟩]
           out := [], errOut := [], stats := {} }
  else if c.mode = "image" ∧ c.image = "" then
    some { records := [⟨4, some "mode=image but image is empty", none⟩]
           out := [], errOut := [], stats := {} }
  else if c.mode = "image" then
    match env.registerResult with
    | .error msg =>
      some { records := [⟨5, some ("Failed to register task definition: " ++ msg), none⟩]
             out := [], errOut := [], stats := { registerCalls := 1 } }
    | .ok arn => runAfterRegister env c (jsOrNull arn) { registerCalls := 1 }
  else
    runAfterRegister env c none {}

/-- The whole invocation (the source's top-level async IIFE): a stdin parse
failure yields the code-1 record, otherwise the pipeline runs on the derived
config. -/
def runMain (env : Env) : Option RunResult :=
  match env.jobResult with
  | .error msg =>
    some { records := [⟨1, some ("Failed to parse job JSON: " ++ msg), none⟩]
           out := [], errOut := [], stats := {} }
  | .ok job => runWithCfg env (cfgOf (job.params.getD {}))

/-- A concrete regex-compile oracle for witnesses: a pattern matches exactly
the line equal to it, and never fails to compile. -/
def compileEq : String → Except String (String → Bool) :=
  fun s => .ok (fun line => line = s)

/-- A concrete RunTask response with one task ARN and no failures. -/
def respW : RunTaskResp := { failures := none, taskArn := some "arn:aws:ecs:task/c1/abc" }

/-- A concrete describe step: STOPPED with one container that exited 0. -/
def stoppedOkStep : PollStep := ⟨.task "STOPPED" (some [⟨some "app", some 0, none⟩]), 50⟩

/-- Builds a concrete environment around a params object. -/
def mkEnv (p : Params) (reg : Except String (Option String)) (run : Except String RunTaskResp)
    (trace : List PollStep) (dereg : Except String Unit) : Env :=
  { jobResult := .ok { params := some p }
    compileRegex := compileEq
    registerResult := reg
    runResult := run
    pollTrace := trace
    postRunResult := .ok (false, [])
    deregisterResult := dereg }

/-- Params of a plain by-reference run that times out after 5 seconds. -/
def pTimeout : Params :=
  { ecs_cluster := some "c1", task_definition := some "td:3", subnets := some "s1",
    wait_timeout_sec := some 5 }

def envTimeout : Env :=
  mkEnv pTimeout (.ok none) (.ok respW)
    [⟨.task "RUNNING" none, 1000⟩, ⟨.task "RUNNING" none, 6000⟩] (.ok ())

def envPollErr : Env :=
  mkEnv pTimeout (.ok none) (.ok respW)
    [⟨.task "RUNNING" none, 1000⟩, ⟨.noTask, 2000⟩, stoppedOkStep] (.ok ())

/-- Params with a FARGATE launch type but an EC2 requires-compatibilities
override, and no subnets configured. -/
def pLaunchFargateCompatEc2 : Params :=
  { ecs_cluster := some "c1", launch_type := some "FARGATE",
    requires_compatibilities := some "EC2", task_definition := some "td:3" }

def envLaunchFargateCompatEc2 : Env :=
  mkEnv pLaunchFargateCompatEc2 (.ok none) (.ok respW) [stoppedOkStep] (.ok ())

/-- Params with an EC2 launch type but a FARGATE requires-compatibilities
override, with one subnet. -/
def pLaunchEc2CompatFargate : Params :=
  { ecs_cluster := some "c1", launch_type := some "EC2",
    requires_compatibilities := some "FARGATE", subnets := some "s1",
    task_definition := some "td:3" }

def envLaunchEc2CompatFargate : Env :=
  mkEnv pLaunchEc2CompatFargate (.ok none) (.ok respW) [stoppedOkStep] (.ok ())

/-- Params of an image-mode run on FARGATE with no subnets configured. -/
def pImageNoSubnets : Params :=
  { ecs_cluster := some "c1", mode := some "image", image := some "nginx" }

def envImageNoSubnets : Env :=
  mkEnv pImageNoSubnets (.ok (some "arn:td/1")) (.error "never called") [] (.ok ())

/-- Params of a full image-mode run (registration, run, stop, cleanup). -/
def pImageFull : Params :=
  { ecs_cluster := some "c1", mode := some "image", image := some "nginx",
    subnets := some "s1" }

def envImageFull : Env :=
  mkEnv pImageFull (.ok (some "arn:td/1")) (.ok respW) [stoppedOkStep] (.error "gone")

/-- An empty params object (every field absent). -/
def pEmpty : Params := {}

def envNoParams : Env := mkEnv pEmpty (.ok none) (.error "never called") [] (.ok ())

/-- Params with a cluster but no task-definition reference. -/
def pMissingRef : Params := { ecs_cluster := some "c1" }

def envMissingRef : Env := mkEnv pMissingRef (.ok none) (.error "never called") [] (.ok ())

/-- An environment whose stdin payload fails to parse. -/
def envJobErr : Env :=
  { jobResult := .error "boom"
    compileRegex := compileEq
    registerResult := .ok none
    runResult := .error "never called"
    pollTrace := []
    postRunResult := .ok (false, [])
    deregisterResult := .ok () }

/-- The result of `runMain envJobErr`, spelled out. -/
def resJobErr : RunResult :=
  { records := [⟨1, some "Failed to parse job JSON: boom", none⟩]
    out := [], errOut := [], stats := {} }

theorem pollLoop_cons_skip (T : Nat) (s : PollStep) (rest : List PollStep)
    (h : okNonTerminalWithin T s) :
    pollLoop T (s :: rest) = (pollLoop T rest).map (fun p => (p.1, p.2 + 1)) := by
  obtain ⟨st, cs, hout, hst, hms⟩ := h
  have hnot : ¬ s.elapsedMs > T * 1000 := Nat.not_lt.mpr hms
  simp only [pollLoop, hout]
  rw [if_neg hst, if_neg hnot]
  cases pollLoop T rest with
  | none => rfl
  | some p => rfl

theorem pollLoop_skip (T : Nat) (pre rest : List PollStep)
    (h : ∀ s ∈ pre, okNonTerminalWithin T s) :
    pollLoop T (pre ++ rest)
      = (pollLoop T rest).map (fun p => (p.1, p.2 + pre.length)) := by
  induction pre with
  | nil =>
    rw [List.nil_append]
    cases pollLoop T rest with
    | none => rfl
    | some p => rfl
  | cons s pre ih =>
    have hs : okNonTerminalWithin T s := h s (List.mem_cons_self ..)
    have ih' := ih (fun x hx => h x (List.mem_cons_of_mem _ hx))
    rw [List.cons_append, pollLoop_cons_skip T s (pre ++ rest) hs, ih']
    cases pollLoop T rest with
    | none => rfl
    | some p => simp [Nat.add_assoc]

theorem stopCodeOf_eq_zero_iff (cs : List ContainerStatus) :
    stopCodeOf cs = 0 ↔ ∀ c ∈ cs, c.exitCode = some 0 := by
  simp only [stopCodeOf]
  split
  · next h =>
    simp only [List.all_eq_true, beq_iff_eq] at h
    simpa using h
  · next h =>
    simp only [List.all_eq_true, beq_iff_eq] at h
    simpa using h

theorem stopCodeOf_eq_one_iff (cs : List ContainerStatus) :
    stopCodeOf cs = 1 ↔ ¬ ∀ c ∈ cs, c.exitCode = some 0 := by
  rw [← stopCodeOf_eq_zero_iff]
  simp only [stopCodeOf]
  split <;> simp

/-- C1: after the status poller observes the terminal STOPPED status, the
stop code is 0 iff every entry of the collected container-status list has
exit code exactly 0, and 1 otherwise; a describe response with no containers
array (or an empty one) yields stop code 0 by vacuous truth. -/
theorem stopCode_iff_all_zero (T ms : Nat) (containers : Option (List DescContainer))
    (rest : List PollStep) :
    ∃ done : PollDone,
      pollLoop T ({ outcome := .task "STOPPED" containers, elapsedMs := ms } :: rest)
        = some (.ok done, 1) ∧
      done.containerStatuses = (containers.getD []).map containerStatusOf ∧
      ((done.stopCode = 0) ↔ (∀ c ∈ done.containerStatuses, c.exitCode = some 0)) ∧
      ((done.stopCode = 1) ↔ ¬ (∀ c ∈ done.containerStatuses, c.exitCode = some 0)) ∧
      ((containers = none ∨ containers = some []) → done.stopCode = 0) := by
  refine ⟨⟨"STOPPED", stopCodeOf ((containers.getD []).map containerStatusOf),
      (containers.getD []).map containerStatusOf⟩, by simp [pollLoop], rfl, ?_, ?_, ?_⟩
  · exact stopCodeOf_eq_zero_iff _
  · exact stopCodeOf_eq_one_iff _
  · rintro (h | h) <;> simp [h, stopCodeOf]

/-- C10: if the terminal describe response contains a container whose exit
code was not reported as a number (recorded as null), the stop code is 1 —
an unreported exit code counts as failure, never as success. -/
theorem null_exit_code_fails (T ms : Nat) (containers : List DescContainer)
    (rest : List PollStep) (c : DescContainer)
    (hc : c ∈ containers) (hnull : c.exitCode = none) :
    ∃ done : PollDone,
      pollLoop T ({ outcome := .task "STOPPED" (some containers), elapsedMs := ms } :: rest)
        = some (.ok done, 1) ∧
      done.stopCode = 1 := by
  refine ⟨⟨"STOPPED", stopCodeOf (containers.map containerStatusOf),
      containers.map containerStatusOf⟩, by simp [pollLoop], ?_⟩
  rw [stopCodeOf_eq_one_iff]
  intro hall
  have := hall (containerStatusOf c) (List.mem_map_of_mem _ hc)
  simp [containerStatusOf, hnull] at this

/-- Witness for C10 at a concrete input: one container with a null exit code. -/
theorem null_exit_code_fails_witness :
    ∃ done : PollDone,
      pollLoop 1800
          ({ outcome := .task "STOPPED" (some [⟨some "app", none, some "OOM"⟩]), elapsedMs := 0 } :: [])
        = some (.ok done, 1) ∧
      done.stopCode = 1 :=
  null_exit_code_fails 1800 0 [⟨some "app", none, some "OOM"⟩] []
    ⟨some "app", none, some "OOM"⟩ (by simp) rfl

theorem runCleanup_stats (env : Env) (c : Cfg) (arn : Option String) (st : RunStats) :
    (runCleanup env c arn st).2.2
      = { st with deregisterCalls := st.deregisterCalls
            + (if arn.isSome ∧ ¬ c.keepTaskDef then 1 else 0) } := by
  unfold runCleanup
  cases arn with
  | none => simp
  | some a =>
    by_cases hk : c.keepTaskDef
    · simp [hk]
    · cases env.deregisterResult <;> simp [hk]

theorem nextCursor_cases (cur fwd : Option String) :
    nextCursor cur fwd = cur ∨ ∃ t, fwd = some t ∧ nextCursor cur fwd = some t := by
  cases fwd with
  | none => left; rfl
  | some t =>
    by_cases h : t ≠ "" ∧ some t ≠ cur
    · right
      refine ⟨t, rfl, ?_⟩
      show (if t ≠ "" ∧ some t ≠ cur then some t else cur) = some t
      rw [if_pos h]
    · left
      show (if t ≠ "" ∧ some t ≠ cur then some t else cur) = cur
      rw [if_neg h]

theorem cursorAfter_mem (c0 : Option String) (toks : List (Option String)) :
    cursorAfter c0 toks = c0 ∨ ∃ t, some t ∈ toks ∧ cursorAfter c0 toks = some t := by
  induction toks generalizing c0 with
  | nil => left; rfl
  | cons x xs ih =>
    have hstep : cursorAfter c0 (x :: xs) = cursorAfter (nextCursor c0 x) xs := rfl
    rcases ih (nextCursor c0 x) with h | ⟨t, ht, h⟩
    · rcases nextCursor_cases c0 x with h1 | ⟨t, hx, h1⟩
      · left; rw [hstep, h, h1]
      · right; exact ⟨t, by simp [hx], by rw [hstep, h, h1]⟩
    · right; exact ⟨t, List.mem_cons_of_mem _ ht, by rw [hstep, h]⟩

/-- C4: a log line is emitted iff (no include pattern in effect OR the include
pattern matches) AND (no exclude pattern in effect OR the exclude pattern does
not match); a pattern string that fails to compile is treated exactly as an
absent pattern (fail open); and a line matching the in-effect exclude pattern
is never emitted, whatever the include pattern is. -/
theorem log_filter_spec (compile : String → Except String (String → Bool))
    (pInc pExc : Option String) (line : String) :
    (shouldPrintLogLine (compiledRegexOf pInc compile) (compiledRegexOf pExc compile) line = true ↔
      ((∀ r, compiledRegexOf pInc compile = some r → r line = true) ∧
       (∀ r, compiledRegexOf pExc compile = some r → r line = false))) ∧
    (∀ s msg exc, compile s = .error msg →
      shouldPrintLogLine (compiledRegexOf (some s) compile) exc line
        = shouldPrintLogLine (compiledRegexOf none compile) exc line) ∧
    (∀ inc r, compiledRegexOf pExc compile = some r → r line = true →
      shouldPrintLogLine inc (compiledRegexOf pExc compile) line = false) := by
  refine ⟨?_, ?_, ?_⟩
  · cases hI : compiledRegexOf pInc compile with
    | none =>
      cases hE : compiledRegexOf pExc compile with
      | none => simp [shouldPrintLogLine]
      | some r2 => cases h2 : r2 line <;> simp [shouldPrintLogLine, h2]
    | some r1 =>
      cases h1 : r1 line with
      | false => simp [shouldPrintLogLine, h1]
      | true =>
        cases hE : compiledRegexOf pExc compile with
        | none => simp [shouldPrintLogLine, h1]
        | some r2 => cases h2 : r2 line <;> simp [shouldPrintLogLine, h1, h2]
  · intro s msg exc h
    by_cases hs : s = "" <;> simp [compiledRegexOf, hs, h, Except.toOption]
  · intro inc r hE hr
    cases inc with
    | none => simp [shouldPrintLogLine, hE, hr]
    | some r1 => cases h1 : r1 line <;> simp [shouldPrintLogLine, hE, hr, h1]

/-- C9: during streaming the continuation token is updated only when a fetch
returns a token that is present, non-empty and different from the current
one (and then the cursor becomes exactly that token); a token equal to the
current cursor, or an absent token, leaves the cursor unchanged; and over any
sequence of fetches the cursor is either still the starting cursor or the
token of one of the fetches — it is never rewound to any other value. -/
theorem cursor_monotone (cur fwd c0 : Option String) (toks : List (Option String)) :
    (nextCursor cur fwd ≠ cur →
      ∃ t, fwd = some t ∧ t ≠ "" ∧ some t ≠ cur ∧ nextCursor cur fwd = some t) ∧
    (∀ t, fwd = some t → some t = cur → nextCursor cur fwd = cur) ∧
    (fwd = none → nextCursor cur fwd = cur) ∧
    (cursorAfter c0 toks = c0 ∨ ∃ t, some t ∈ toks ∧ cursorAfter c0 toks = some t) := by
  refine ⟨?_, ?_, ?_, cursorAfter_mem c0 toks⟩
  · intro hne
    cases fwd with
    | none => exact absurd rfl hne
    | some t =>
      by_cases h : t ≠ "" ∧ some t ≠ cur
      · refine ⟨t, rfl, h.1, h.2, ?_⟩
        show (if t ≠ "" ∧ some t ≠ cur then some t else cur) = some t
        rw [if_pos h]
      · exfalso
        apply hne
        show (if t ≠ "" ∧ some t ≠ cur then some t else cur) = cur
        rw [if_neg h]
  · intro t hf heq
    subst hf
    show (if t ≠ "" ∧ some t ≠ cur then some t else cur) = cur
    rw [if_neg (fun hc => hc.2 heq)]
  · intro hf
    subst hf
    rfl

/-- C2: when the wait loop's timeout check fires — the configured timeout has
elapsed at an iteration whose describe call still reports a non-terminal
status, all earlier iterations also being non-terminal and within the
timeout — the loop stops with stop code exactly 124, whatever the container
state of that response, the final record reports code 124, and the loop makes
no further describe call (the describe count is the prefix length plus one,
for any continuation of the trace). -/
theorem timeout_emits_124 (env : Env) (c : Cfg) (arn : Option String) (taskArn : String)
    (st : RunStats) (pre tail : List PollStep) (status : String)
    (containers : Option (List DescContainer)) (ms : Nat)
    (hpre : ∀ s ∈ pre, okNonTerminalWithin c.waitTimeoutSec s)
    (hstatus : status ≠ "STOPPED")
    (hms : ms > c.waitTimeoutSec * 1000)
    (htrace : env.pollTrace
      = pre ++ { outcome := .task status containers, elapsedMs := ms } :: tail) :
    ∃ res, runPollPhase env c arn taskArn st = some res ∧
      res.records = [⟨124, some "ECS task stopped with non-zero exit", some ⟨taskArn, []⟩⟩] ∧
      res.stats.describeCalls = st.describeCalls + (pre.length + 1) := by
  have hloop : pollLoop c.waitTimeoutSec env.pollTrace
      = some (.ok ⟨status, 124, []⟩, pre.length + 1) := by
    rw [htrace, pollLoop_skip _ _ _ hpre]
    simp only [pollLoop, if_neg hstatus]
    rw [if_pos hms]
    simp [Nat.add_comm]
  simp only [runPollPhase, hloop]
  refine ⟨_, rfl, ?_, ?_⟩
  · simp
  · simp [runCleanup_stats]

/-- Witness for C2 at a concrete input: a 5-second timeout, one in-time
RUNNING poll, then a RUNNING poll at 6000 ms. -/
theorem timeout_emits_124_witness :
    ∃ res, runPollPhase envTimeout (cfgOf pTimeout) none "arn:aws:ecs:task/c1/abc" {}
        = some res ∧
      res.records = [⟨124, some "ECS task stopped with non-zero exit",
        some ⟨"arn:aws:ecs:task/c1/abc", []⟩⟩] ∧
      res.stats.describeCalls = 2 := by
  obtain ⟨res, h1, h2, h3⟩ :=
    timeout_emits_124 envTimeout (cfgOf pTimeout) none "arn:aws:ecs:task/c1/abc" {}
      [⟨.task "RUNNING" none, 1000⟩] [] "RUNNING" none 6000
      (by
        intro s hs
        simp only [List.mem_singleton] at hs
        subst hs
        exact ⟨"RUNNING", none, rfl, by decide, by decide⟩)
      (by decide) (by decide) rfl
  exact ⟨res, h1, h2, by simpa using h3⟩

/-- C7: any error from the describe-task API while polling — an SDK error or
a response with no task (the distinct "disappeared" case) — is fatal: the
invocation emits exactly the code-10 record, performs no cleanup or further
activity, and makes no further describe call (the describe count is the
prefix length plus one, for any continuation of the trace). -/
theorem polling_error_fatal (env : Env) (c : Cfg) (arn : Option String) (taskArn : String)
    (st : RunStats) (pre tail : List PollStep) (step : PollStep) (msg : String)
    (hpre : ∀ s ∈ pre, okNonTerminalWithin c.waitTimeoutSec s)
    (hstep : step.outcome = .apiError msg ∨
      (step.outcome = .noTask ∧ msg = "DescribeTasks returned no task"))
    (htrace : env.pollTrace = pre ++ step :: tail) :
    runPollPhase env c arn taskArn st = some
      { records := [⟨10, some ("Error while waiting for task to stop: " ++ msg), none⟩]
        out := [], errOut := []
        stats := { st with describeCalls := st.describeCalls + (pre.length + 1) } } := by
  have hloop : pollLoop c.waitTimeoutSec env.pollTrace
      = some (.error msg, pre.length + 1) := by
    rw [htrace, pollLoop_skip _ _ _ hpre]
    rcases hstep with h | ⟨h, hmsg⟩
    · simp [pollLoop, h, Nat.add_comm]
    · subst hmsg
      simp [pollLoop, h, Nat.add_comm]
  simp only [runPollPhase, hloop]

/-- Witness for C7 at a concrete input: one in-time RUNNING poll, then a
describe response with no task; the trace continues but is not consumed. -/
theorem polling_error_fatal_witness :
    runPollPhase envPollErr (cfgOf pTimeout) none "arn:aws:ecs:task/c1/abc" {} = some
      { records := [⟨10,
          some "Error while waiting for task to stop: DescribeTasks returned no task", none⟩]
        out := [], errOut := []
        stats := { describeCalls := 2 } } := by
  have h := polling_error_fatal envPollErr (cfgOf pTimeout) none "arn:aws:ecs:task/c1/abc" {}
    [⟨.task "RUNNING" none, 1000⟩] [stoppedOkStep] ⟨.noTask, 2000⟩
    "DescribeTasks returned no task"
    (by
      intro s hs
      simp only [List.mem_singleton] at hs
      subst hs
      exact ⟨"RUNNING", none, rfl, by decide, by decide⟩)
    (Or.inr ⟨rfl, rfl⟩) rfl
  simpa using h

theorem runPollPhase_one_record (env : Env) (c : Cfg) (arn : Option String)
    (taskArn : String) (st : RunStats) (res : RunResult)
    (h : runPollPhase env c arn taskArn st = some res) :
    res.records.length = 1 := by
  unfold runPollPhase at h
  cases hp : pollLoop c.waitTimeoutSec env.pollTrace with
  | none => rw [hp] at h; exact absurd h (by simp)
  | some p =>
    rw [hp] at h
    obtain ⟨r, n⟩ := p
    cases r with
    | error msg =>
      simp only [Option.some.injEq] at h
      subst h
      rfl
    | ok done =>
      simp only [Option.some.injEq] at h
      subst h
      rfl

theorem runAfterRegister_one_record (env : Env) (c : Cfg) (arn : Option String)
    (st : RunStats) (res : RunResult)
    (h : runAfterRegister env c arn st = some res) :
    res.records.length = 1 := by
  unfold runAfterRegister at h
  by_cases h6 : c.reqCompat = "FARGATE" ∧ c.subnets = []
  · rw [if_pos h6] at h
    simp only [Option.some.injEq] at h
    subst h
    rfl
  · rw [if_neg h6] at h
    cases hr : env.runResult with
    | error msg =>
      rw [hr] at h
      simp only [Option.some.injEq] at h
      subst h
      rfl
    | ok resp =>
      rw [hr] at h
      dsimp only at h
      by_cases hf : resp.failures.getD [] ≠ []
      · rw [if_pos hf] at h
        simp only [Option.some.injEq] at h
        subst h
        rfl
      · rw [if_neg hf] at h
        by_cases ha : resp.taskArn.getD "" = ""
        · rw [if_pos ha] at h
          simp only [Option.some.injEq] at h
          subst h
          rfl
        · rw [if_neg ha] at h
          cases hpp : runPollPhase env c arn (resp.taskArn.getD "")
              { st with networkAttached := (networkConfigurationOf c).isSome
                        runCalls := st.runCalls + 1 } with
          | none => rw [hpp] at h; exact absurd h (by simp)
          | some res' =>
            rw [hpp] at h
            simp only [Option.some.injEq] at h
            subst h
            exact runPollPhase_one_record _ _ _ _ _ res' hpp

theorem runWithCfg_one_record (env : Env) (c : Cfg) (res : RunResult)
    (h : runWithCfg env c = some res) :
    res.records.length = 1 := by
  unfold runWithCfg at h
  by_cases h2 : c.cluster = ""
  · rw [if_pos h2] at h
    simp only [Option.some.injEq] at h
    subst h
    rfl
  · rw [if_neg h2] at h
    by_cases h3 : c.mode = "task_definition" ∧ c.taskDefinition = ""
    · rw [if_pos h3] at h
      simp only [Option.some.injEq] at h
      subst h
      rfl
    · rw [if_neg h3] at h
      by_cases h4 : c.mode = "image" ∧ c.image = ""
      · rw [if_pos h4] at h
        simp only [Option.some.injEq] at h
        subst h
        rfl
      · rw [if_neg h4] at h
        by_cases h5 : c.mode = "image"
        · rw [if_pos h5] at h
          cases hreg : env.registerResult with
          | error msg =>
            rw [hreg] at h
            simp only [Option.some.injEq] at h
            subst h
            rfl
          | ok arn =>
            rw [hreg] at h
            exact runAfterRegister_one_record _ _ _ _ _ h
        · rw [if_neg h5] at h
          exact runAfterRegister_one_record _ _ _ _ _ h

/-- C3: every completed invocation emits exactly one completion record on the
primary output channel, whatever the job input and whatever every external
call returned — including every early fatal-failure path; the pipeline never
finishes silently and never emits two records. -/
theorem exactly_one_record (env : Env) (res : RunResult)
    (h : runMain env = some res) :
    res.records.length = 1 := by
  unfold runMain at h
  cases hj : env.jobResult with
  | error msg =>
    rw [hj] at h
    simp only [Option.some.injEq] at h
    subst h
    rfl
  | ok job =>
    rw [hj] at h
    exact runWithCfg_one_record _ _ _ h

/-- Witness for C3 at a concrete input: a malformed stdin payload still
produces exactly one record. -/
theorem exactly_one_record_witness : resJobErr.records.length = 1 :=
  exactly_one_record envJobErr resJobErr rfl

theorem runPollPhase_networkAttached (env : Env) (c : Cfg) (arn : Option String)
    (taskArn : String) (st : RunStats) (res : RunResult)
    (h : runPollPhase env c arn taskArn st = some res) :
    res.stats.networkAttached = st.networkAttached := by
  unfold runPollPhase at h
  cases hp : pollLoop c.waitTimeoutSec env.pollTrace with
  | none => rw [hp] at h; exact absurd h (by simp)
  | some p =>
    rw [hp] at h
    obtain ⟨r, n⟩ := p
    cases r with
    | error msg =>
      simp only [Option.some.injEq] at h
      subst h
      rfl
    | ok done =>
      simp only [Option.some.injEq] at h
      subst h
      simp [runCleanup_stats]

/-- C5 counterexample: the subnet gate and the networking block do not key on
the launch type. A request with launch type FARGATE but a
requires_compatibilities override of EC2 and zero subnets is launched
(RunTask called once, no code-6 record, no networking block); a request with
launch type EC2 but requires_compatibilities FARGATE gets the networking
block attached. -/
theorem fargate_gate_counterexample :
    ((runMain envLaunchFargateCompatEc2).map
        (fun r => (r.records.map RunOutcomeRec.code, r.stats.runCalls, r.stats.networkAttached))
      = some ([0], 1, false)
     ∧ pLaunchFargateCompatEc2.launch_type = some "FARGATE"
     ∧ splitCsv (jsOr pLaunchFargateCompatEc2.subnets "") = [])
    ∧ ((runMain envLaunchEc2CompatFargate).map
        (fun r => (r.records.map RunOutcomeRec.code, r.stats.runCalls, r.stats.networkAttached))
      = some ([0], 1, true)
     ∧ pLaunchEc2CompatFargate.launch_type = some "EC2") := by
  refine ⟨⟨?_, rfl, ?_⟩, ⟨?_, rfl⟩⟩ <;> decide

/-- C5 amended: the subnet gate and the networking block key on the derived
requires-compatibilities value — which defaults to the launch type but is
overridden by the requires_compatibilities parameter — not on the launch
type itself. When that value is FARGATE and no subnets are configured, the
code-6 record is emitted and no RunTask call occurs (call counters
unchanged; in by-reference mode this is before any remote call, while in
image mode the registration call has already happened); and the networking
block is attached iff that value is FARGATE. -/
theorem fargate_subnet_gate_amended (env : Env) (c : Cfg) (arn : Option String)
    (st : RunStats) :
    (c.reqCompat = "FARGATE" ∧ c.subnets = [] →
      runAfterRegister env c arn st = some
        { records := [⟨6, some "FARGATE requires subnets (params.subnets)", none⟩]
          out := [], errOut := [], stats := st })
    ∧ ((networkConfigurationOf c).isSome ↔ c.reqCompat = "FARGATE")
    ∧ (∀ res, runAfterRegister env c arn st = some res → res.stats.runCalls > st.runCalls →
        res.stats.networkAttached = (networkConfigurationOf c).isSome)
    ∧ (c.mode ≠ "image" → c.cluster ≠ "" →
        ¬ (c.mode = "task_definition" ∧ c.taskDefinition = "") →
        c.reqCompat = "FARGATE" → c.subnets = [] →
        runWithCfg env c = some
          { records := [⟨6, some "FARGATE requires subnets (params.subnets)", none⟩]
            out := [], errOut := [], stats := {} }) := by
  refine ⟨?_, ?_, ?_, ?_⟩
  · intro h6
    unfold runAfterRegister
    rw [if_pos h6]
  · unfold networkConfigurationOf
    by_cases h : c.reqCompat = "FARGATE" <;> simp [h]
  · intro res hres hrun
    unfold runAfterRegister at hres
    by_cases h6 : c.reqCompat = "FARGATE" ∧ c.subnets = []
    · rw [if_pos h6] at hres
      simp only [Option.some.injEq] at hres
      subst hres
      simp at hrun
    · rw [if_neg h6] at hres
      cases hr : env.runResult with
      | error msg =>
        rw [hr] at hres
        simp only [Option.some.injEq] at hres
        subst hres
        rfl
      | ok resp =>
        rw [hr] at hres
        dsimp only at hres
        by_cases hf : resp.failures.getD [] ≠ []
        · rw [if_pos hf] at hres
          simp only [Option.some.injEq] at hres
          subst hres
          rfl
        · rw [if_neg hf] at hres
          by_cases ha : resp.taskArn.getD "" = ""
          · rw [if_pos ha] at hres
            simp only [Option.some.injEq] at hres
            subst hres
            rfl
          · rw [if_neg ha] at hres
            cases hpp : runPollPhase env c arn (resp.taskArn.getD "")
                { st with networkAttached := (networkConfigurationOf c).isSome
                          runCalls := st.runCalls + 1 } with
            | none => rw [hpp] at hres; exact absurd hres (by simp)
            | some res' =>
              rw [hpp] at hres
              simp only [Option.some.injEq] at hres
              subst hres
              exact runPollPhase_networkAttached _ _ _ _ _ res' hpp
  · intro hmode hcl h3 hF hsub
    unfold runWithCfg
    rw [if_neg hcl, if_neg h3, if_neg (fun hh => hmode hh.1), if_neg hmode]
    unfold runAfterRegister
    rw [if_pos ⟨hF, hsub⟩]

/-- C6 counterexample: a task_definition-mode request with an empty reference
whose cluster parameter is also missing emits the code-2 record (missing
cluster), not the code-3 record the claim requires. -/
theorem missing_cluster_shadows_reference :
    (runMain envNoParams).map (fun r => r.records.map RunOutcomeRec.code) = some [2]
    ∧ (runMain envNoParams).map (fun r => r.records.map RunOutcomeRec.code) ≠ some [3]
    ∧ jsOr pEmpty.mode "task_definition" = "task_definition"
    ∧ jsOr pEmpty.task_definition "" = "" := by
  refine ⟨?_, ?_, rfl, rfl⟩ <;> decide

/-- C6 amended: for every request with a non-empty cluster in task_definition
mode whose task-definition reference is empty, the emitted record carries
code 3 and no external call of any kind occurs (all call counters zero) —
the failure is detected before any remote call. -/
theorem missing_reference_amended (env : Env) (c : Cfg)
    (hcl : c.cluster ≠ "") (hm : c.mode = "task_definition") (htd : c.taskDefinition = "") :
    runWithCfg env c = some
      { records := [⟨3, some "mode=task_definition but task_definition is empty", none⟩]
        out := [], errOut := [], stats := {} } := by
  unfold runWithCfg
  rw [if_neg hcl, if_pos ⟨hm, htd⟩]

/-- Witness for C6 amended at a concrete input: a cluster and nothing else. -/
theorem missing_reference_amended_witness :
    runWithCfg envMissingRef (cfgOf pMissingRef) = some
      { records := [⟨3, some "mode=task_definition but task_definition is empty", none⟩]
        out := [], errOut := [], stats := {} } :=
  missing_reference_amended envMissingRef (cfgOf pMissingRef) (by decide) rfl rfl

/-- C8 counterexample: an image-mode run that registers a task definition and
then fails the FARGATE subnet gate returns early with the code-6 record and
never attempts deregistration (zero deregister calls despite one register
call and an unset keep flag) — deregistration is not attempted exactly once
per run. -/
theorem dereg_skipped_counterexample :
    (runMain envImageNoSubnets).map
        (fun r => (r.records.map RunOutcomeRec.code, r.stats.registerCalls,
          r.stats.deregisterCalls))
      = some ([6], 1, 0)
    ∧ pImageNoSubnets.keep_task_definition = false := by
  exact ⟨by decide, rfl⟩

/-- C8 amended: on every run that reaches the completion stage (the wait
loop returns normally), deregistration of a run-registered task definition
is attempted exactly once — and zero times when the keep flag is set or
nothing was registered — and the completion records (code, description,
details) do not depend on the deregistration call's result; on fatal paths
before the completion stage it is not attempted at all. -/
theorem dereg_once_on_completion (env : Env) (c : Cfg) (arn : Option String)
    (taskArn : String) (st : RunStats) (r1 r2 : Except String Unit)
    (done : PollDone) (n : Nat)
    (hdone : pollLoop c.waitTimeoutSec env.pollTrace = some (.ok done, n)) :
    (Option.map RunResult.records
        (runPollPhase { env with deregisterResult := r1 } c arn taskArn st)
      = Option.map RunResult.records
        (runPollPhase { env with deregisterResult := r2 } c arn taskArn st))
    ∧ (∃ res, runPollPhase env c arn taskArn st = some res ∧
        res.stats.deregisterCalls = st.deregisterCalls
          + (if arn.isSome ∧ ¬ c.keepTaskDef then 1 else 0)) := by
  constructor
  · simp [runPollPhase, hdone]
  · simp only [runPollPhase, hdone]
    refine ⟨_, rfl, ?_⟩
    simp [runCleanup_stats]

/-- Witness for C8 amended at a concrete input: a completed image-mode run,
compared across a succeeding and a failing deregistration call. -/
theorem dereg_once_on_completion_witness :
    (Option.map RunResult.records
        (runPollPhase { envImageFull with deregisterResult := Except.ok () }
          (cfgOf pImageFull) (some "arn:td/1") "arn:aws:ecs:task/c1/abc" { registerCalls := 1 })
      = Option.map RunResult.records
        (runPollPhase { envImageFull with deregisterResult := Except.error "gone" }
          (cfgOf pImageFull) (some "arn:td/1") "arn:aws:ecs:task/c1/abc" { registerCalls := 1 }))
    ∧ (∃ res, runPollPhase envImageFull (cfgOf pImageFull)
          (some "arn:td/1") "arn:aws:ecs:task/c1/abc" { registerCalls := 1 } = some res ∧
        res.stats.deregisterCalls = ({ registerCalls := 1 } : RunStats).deregisterCalls
          + (if (some "arn:td/1" : Option String).isSome ∧ ¬ (cfgOf pImageFull).keepTaskDef
             then 1 else 0)) :=
  dereg_once_on_completion envImageFull (cfgOf pImageFull) (some "arn:td/1")
    "arn:aws:ecs:task/c1/abc" { registerCalls := 1 } (.ok ()) (.error "gone")
    ⟨"STOPPED", 0, [⟨some "app", some 0, ""⟩]⟩ 1 rfl
